import Mathlib

/-!
Verification of the micro-observables reactive engine (`src/observable.ts`,
the current version of the file: `Observable` / `WritableObservable` /
`DerivedObservable` with the `_dirty` flag and `markAsDirty`).

The TypeScript classes are shallowly embedded as a heap of `Cell` records
indexed by `Nat`, together with the module-level mutable state
(`dirtyObservables`, `batchDepth`, `globalRevision`, and the ambient
`Observable.onGet` dependency-tracking hook).  Methods become arms of a
single fueled interpreter `exec`; user-supplied compute closures are
embedded as a small expression language `Comp` whose cell reads go through
the engine's `get`, exactly as in the source.  Listeners cannot run
arbitrary code in the model: invoking one appends a record to an
observation log (and optionally throws), which is what the claims need.
`setBatchedUpdateFn` is never called in the core, so `batchedUpdateFn` is
modelled as permanently `undefined` and `Observable.batch` always runs its
block directly.

Two instrumentation-only fields exist that have no counterpart in the
source and never influence control flow: `Cell.computeRuns` (how many
times the user compute function of a derived cell has been invoked) and
`EngineState.log` (the listener invocations).
-/

namespace MicroObservables

/-- JavaScript primitive values as far as the engine observes them:
numbers (with `NaN` separate, since `NaN !== NaN`), strings, and
`undefined`. -/
inductive JSVal where
  | num (n : Int)
  | nan
  | str (s : String)
  | undefined
deriving DecidableEq, Repr

/-- JavaScript strict equality `===` on the embedded values: `NaN` is not
strictly equal to anything, including itself. -/
def jsStrictEq : JSVal → JSVal → Bool
  | .nan, _ => false
  | _, .nan => false
  | a, b => a == b

/-- JavaScript `+` restricted to the numeric uses the modelled compute
functions make of it (non-numeric operands only arise in ill-typed
scenarios and collapse to `NaN`). -/
def jsAdd : JSVal → JSVal → JSVal
  | .num a, .num b => .num (a + b)
  | _, _ => .nan

/-- JavaScript truthiness of the embedded values. -/
def jsTruthy : JSVal → Bool
  | .num n => !(n == 0)
  | .nan => false
  | .str s => !(s == "")
  | .undefined => false

/-- A user-supplied `equalityFn` from `Options`.  The engine only ever
calls it, so it is embedded as a closed family of functions sufficient for
the claims. -/
inductive EqFn where
  | alwaysTrue
  | alwaysFalse
  | structEq
deriving DecidableEq, Repr

def applyEqFn : EqFn → JSVal → JSVal → Bool
  | .alwaysTrue, _, _ => true
  | .alwaysFalse, _, _ => false
  | .structEq, a, b => a == b

/-- The compute closure of a `DerivedObservable`, as an expression whose
cell reads call the engine's `get` (and therefore are seen by the
`Observable.onGet` hook), mirroring `() => ... x.get() ...`. -/
inductive Comp where
  | const (v : JSVal)
  | getCell (id : Nat)
  | add (a b : Comp)
  | cond (c t e : Comp)
  | throwErr
deriving DecidableEq, Repr

/-- A block passed to `Observable.batch` / executed by user code: a
sequence of `set` and `get` calls (plus the internal `addToBatch` thunk
that `markAsDirty` passes to `batch`). -/
inductive Prog where
  | skip
  | seq (a b : Prog)
  | setP (id : Nat) (v : JSVal)
  | getP (id : Nat)
  | addToBatch (id : Nat)
  | batchP (p : Prog)
deriving DecidableEq, Repr

inductive CellKind where
  | writable
  | derived
deriving DecidableEq, Repr

/-- One observable: the fields of `Observable` plus the subclass fields of
`WritableObservable` (`_defaultVal`, `_next`) and `DerivedObservable`
(`_compute`, `_prevInputs`, `_memoized`), flattened.  `val = none` is the
`UNSET` sentinel.  Listeners are identifiers into the engine's listener
table.  `computeRuns` is instrumentation only. -/
structure Cell where
  kind : CellKind
  val : Option JSVal := none
  equalityFn : Option EqFn := none
  listeners : List Nat := []
  inputs : List Nat := []
  outputs : List Nat := []
  revision : Int := -1
  refreshRevision : Int := -1
  attached : Bool := false
  dirty : Bool := false
  defaultVal : JSVal := .undefined
  next : Option JSVal := none
  compute : Comp := .const .undefined
  prevInputs : List (Nat × Int) := []
  memoized : Option JSVal := none
  computeRuns : Nat := 0
deriving DecidableEq, Repr

/-- A listener `(val, prevVal) => void`: the model records every
invocation in the log; a listener with `throws = true` then throws. -/
structure ListenerSpec where
  throws : Bool
deriving DecidableEq, Repr

/-- One recorded listener invocation `listener(val, prevVal)` on a cell. -/
structure LogEntry where
  cellId : Nat
  listenerId : Nat
  newVal : JSVal
  prevVal : JSVal
deriving DecidableEq, Repr

/-- The whole engine: the heap of cells plus the module-level mutable
variables of `observable.ts`.  `trackFrames` embeds the `Observable.onGet`
hook: the hook is set exactly when the stack is nonempty, and a read
records into the top frame — the save/restore pair around each derived
computation becomes push/pop. -/
structure EngineState where
  cells : List Cell
  listenerSpecs : List ListenerSpec := []
  dirtyObservables : List Nat := []
  batchDepth : Nat := 0
  globalRevision : Int := 0
  trackFrames : List (List (Nat × Int)) := []
  log : List LogEntry := []
deriving DecidableEq, Repr

def cellAt (s : EngineState) (id : Nat) : Cell :=
  s.cells.getD id { kind := .writable }

def writeCell (s : EngineState) (id : Nat) (c : Cell) : EngineState :=
  { s with cells := s.cells.set id c }

def updCell (s : EngineState) (id : Nat) (f : Cell → Cell) : EngineState :=
  writeCell s id (f (cellAt s id))

/-- `_listeners.length > 0 || _outputs.length > 0` (`isObserved`). -/
def isObserved (c : Cell) : Bool :=
  !c.listeners.isEmpty || !c.outputs.isEmpty

/-- `Array.prototype.splice(indexOf(a), 1)`: removes the first occurrence
of `a`; when `a` is absent, `indexOf` is `-1` and `splice(-1, 1)` removes
the last element. -/
def spliceRemove [DecidableEq α] (l : List α) (a : α) : List α :=
  if a ∈ l then l.erase a else l.dropLast

/-- `Map.set k v`: update the value at `k` in place if present (keeping
insertion order), else append. -/
def mapSet (l : List (Nat × Int)) (k : Nat) (v : Int) : List (Nat × Int) :=
  match l with
  | [] => [(k, v)]
  | (k', v') :: rest => if k' = k then (k, v) :: rest else (k', v') :: mapSet rest k v

def mapHas (l : List (Nat × Int)) (k : Nat) : Bool :=
  l.any (fun p => p.1 == k)

/-- `Map.delete k`: remove the entry with key `k` (keys are unique in a
`Map`, so removing the first occurrence is exact). -/
def mapDelete (l : List (Nat × Int)) (k : Nat) : List (Nat × Int) :=
  match l with
  | [] => []
  | (k', v') :: rest => if k' = k then rest else (k', v') :: mapDelete rest k

/-- Outcome of running a piece of the engine: normal return, a JavaScript
exception propagating, or interpreter fuel exhausted (no counterpart in
the source; all theorems supply enough fuel). -/
inductive Res (α : Type) where
  | ok (a : α)
  | thrown
  | out
deriving DecidableEq, Repr

/-- State-and-exception monad of the engine. -/
def EngM (α : Type) : Type := EngineState → Res α × EngineState

def bindE {α β : Type} (m : EngM α) (f : α → EngM β) : EngM β := fun s =>
  match m s with
  | (.ok a, s') => f a s'
  | (.thrown, s') => (.thrown, s')
  | (.out, s') => (.out, s')

def pureE {α : Type} (a : α) : EngM α := fun s => (.ok a, s)

instance : Monad EngM where
  pure := pureE
  bind := bindE

@[simp] theorem bind_eq {α β : Type} (m : EngM α) (f : α → EngM β) :
    m >>= f = bindE m f := rfl

@[simp] theorem pure_eq {α : Type} (a : α) : (pure a : EngM α) = pureE a := rfl

def getS : EngM EngineState := fun s => (.ok s, s)

def setS (s' : EngineState) : EngM Unit := fun _ => (.ok (), s')

def modS (f : EngineState → EngineState) : EngM Unit := fun s => (.ok (), f s)

def throwE {α : Type} : EngM α := fun s => (.thrown, s)

def noFuel {α : Type} : EngM α := fun s => (.out, s)

/-- `try body finally fin`: `fin` always runs; an abrupt completion of
`fin` replaces the body's outcome (JavaScript semantics). -/
def tryFinallyM {α : Type} (body : EngM α) (fin : EngM Unit) : EngM α := fun s =>
  match body s with
  | (.ok a, s') =>
    match fin s' with
    | (.ok _, s'') => (.ok a, s'')
    | (.thrown, s'') => (.thrown, s'')
    | (.out, s'') => (.out, s'')
  | (.thrown, s') =>
    match fin s' with
    | (.ok _, s'') => (.thrown, s'')
    | (.thrown, s'') => (.thrown, s'')
    | (.out, s'') => (.out, s'')
  | (.out, s') =>
    match fin s' with
    | (.ok _, s'') => (.out, s'')
    | (.thrown, s'') => (.thrown, s'')
    | (.out, s'') => (.out, s'')

/-- Uniform return value of the interpreter's operations. -/
inductive RVal where
  | unit
  | bool (b : Bool)
  | val (v : JSVal)
deriving DecidableEq, Repr

def toBool : RVal → Bool
  | .bool b => b
  | _ => false

def toVal : RVal → JSVal
  | .val v => v
  | _ => .undefined

/-- `this.addInput(input)` (`observable.ts` line 381): push onto
`_inputs`; if attached, `attachInput` pushes the back-reference onto the
input's `_outputs`. -/
def addInputFn (selfId inputId : Nat) (s : EngineState) : EngineState :=
  let s1 := updCell s selfId (fun c => { c with inputs := c.inputs ++ [inputId] })
  if (cellAt s1 selfId).attached then
    updCell s1 inputId (fun c => { c with outputs := c.outputs ++ [selfId] })
  else s1

/-- `this.removeInput(input)` (line 388): splice out of `_inputs`; if
attached, `detachInput` splices the back-reference out of the input's
`_outputs`. -/
def removeInputFn (selfId inputId : Nat) (s : EngineState) : EngineState :=
  let s1 := updCell s selfId (fun c => { c with inputs := spliceRemove c.inputs inputId })
  if (cellAt s1 selfId).attached then
    updCell s1 inputId (fun c => { c with outputs := spliceRemove c.outputs selfId })
  else s1

/-- First rewiring loop of `DerivedObservable.evaluate` (lines 571-577):
for each key of the freshly recorded input map, `addInput` it if it was
not a previous input, else delete it from the (live) `_prevInputs` map. -/
def rewireNew (selfId : Nat) (keys : List Nat) (s : EngineState) : EngineState :=
  match keys with
  | [] => s
  | k :: rest =>
    let c := cellAt s selfId
    let s' :=
      if mapHas c.prevInputs k then
        updCell s selfId (fun c => { c with prevInputs := mapDelete c.prevInputs k })
      else addInputFn selfId k s
    rewireNew selfId rest s'

def removeStaleList (selfId : Nat) (keys : List Nat) (s : EngineState) : EngineState :=
  match keys with
  | [] => s
  | k :: rest => removeStaleList selfId rest (removeInputFn selfId k s)

/-- Second rewiring loop (lines 578-580): `removeInput` every key still
left in `_prevInputs` (an input of the previous evaluation that was not
read this time). -/
def removeStale (selfId : Nat) (s : EngineState) : EngineState :=
  removeStaleList selfId ((cellAt s selfId).prevInputs.map Prod.fst) s

/-- The flush's listener loop (lines 480-484): iterate a snapshot of the
cell's listener list, invoking each with `(val, prevVal)`.  Invoking logs
the call; a throwing listener then propagates, which (as in the source,
where the call is not isolated) aborts everything after it. -/
def notifyListeners (id : Nat) (ls : List Nat) (v pv : JSVal) : EngM Unit :=
  match ls with
  | [] => pure ()
  | lid :: rest => fun s =>
    let s' := { s with log := s.log ++ [⟨id, lid, v, pv⟩] }
    if (s.listenerSpecs.getD lid ⟨false⟩).throws then (.thrown, s')
    else notifyListeners id rest v pv s'

/-- The operations of the engine's recursive core, one constructor per
method (plus the internal list-iterating loops of those methods). -/
inductive Op where
  | refresh (id : Nat)
  | evaluate (id : Nat)
  | checkPrevInputs (l : List (Nat × Int))
  | evalComp (c : Comp)
  | get (id : Nat)
  | attachInputs (id : Nat)
  | attachList (selfId : Nat) (l : List Nat)
  | detachInputs (id : Nat)
  | detachList (selfId : Nat) (l : List Nat)
  | addToBatchRec (id : Nat)
  | addOutsToBatch (l : List Nat)
  | markAsDirty (id : Nat)
  | setValue (id : Nat) (v : JSVal)
  | batchRun (p : Prog)
  | runProg (p : Prog)
  | flushLoop (l : List Nat)
deriving DecidableEq, Repr

/-- The engine.  Each arm transcribes the correspondingly named method of
`observable.ts`; fuel only bounds the recursion depth. -/
def exec : Nat → Op → EngM RVal
  | 0, _ => noFuel
  | fuel + 1, op =>
    match op with
    | .refresh id => do
      -- Observable.refresh, lines 333-356.
      let s ← getS
      let c := cellAt s id
      if c.refreshRevision == s.globalRevision then
        pure (.bool false)
      else do
        modS (fun s => updCell s id (fun c => { c with refreshRevision := s.globalRevision }))
        match c.val with
        | none => do
          let r ← exec fuel (.evaluate id)
          modS (fun s => updCell s id (fun c =>
            { c with val := some (toVal r), revision := s.globalRevision }))
          pure (.bool false)
        | some old =>
          if !c.attached || c.dirty then do
            let r ← exec fuel (.evaluate id)
            let v := toVal r
            if !jsStrictEq old v &&
                (match c.equalityFn with
                 | none => true
                 | some f => !applyEqFn f old v) then do
              modS (fun s => updCell s id (fun c =>
                { c with val := some v, revision := s.globalRevision }))
              pure (.bool true)
            else pure (.bool false)
          else pure (.bool false)
    | .evaluate id => do
      let s ← getS
      let c := cellAt s id
      match c.kind with
      | .writable => do
        -- WritableObservable.evaluate, lines 524-528.
        modS (fun s => updCell s id (fun c => { c with next := none }))
        pure (.val (match c.next with
          | some n => n
          | none => match c.val with
            | some v => v
            | none => c.defaultVal))
      | .derived => do
        -- DerivedObservable.evaluate, lines 541-587.
        let changed ←
          match c.memoized with
          | none => pure true
          | some _ => do
            let r ← exec fuel (.checkPrevInputs c.prevInputs)
            pure (toBool r)
        if !changed then
          pure (.val (c.memoized.getD .undefined))
        else do
          modS (fun s => { s with trackFrames := [] :: s.trackFrames })
          tryFinallyM
            (do
              modS (fun s => updCell s id (fun c => { c with computeRuns := c.computeRuns + 1 }))
              let r ← exec fuel (.evalComp c.compute)
              let v := toVal r
              let s ← getS
              let frame := s.trackFrames.headD []
              modS (fun s => removeStale id (rewireNew id (frame.map Prod.fst) s))
              modS (fun s => updCell s id (fun c =>
                { c with memoized := some v, prevInputs := frame }))
              pure (.val v))
            (modS (fun s => { s with trackFrames := s.trackFrames.tail }))
    | .checkPrevInputs l =>
      -- The fast-path loop of DerivedObservable.evaluate, lines 542-556.
      match l with
      | [] => pure (.bool false)
      | (i, r) :: rest => do
        let _ ← exec fuel (.refresh i)
        let s ← getS
        if (cellAt s i).revision == r then
          exec fuel (.checkPrevInputs rest)
        else pure (.bool true)
    | .evalComp c =>
      -- Running the user compute closure: reads go through get.
      match c with
      | .const v => pure (.val v)
      | .getCell id => exec fuel (.get id)
      | .add a b => do
        let ra ← exec fuel (.evalComp a)
        let rb ← exec fuel (.evalComp b)
        pure (.val (jsAdd (toVal ra) (toVal rb)))
      | .cond cc t e => do
        let rc ← exec fuel (.evalComp cc)
        if jsTruthy (toVal rc) then exec fuel (.evalComp t)
        else exec fuel (.evalComp e)
      | .throwErr => throwE
    | .get id => do
      -- Observable.get, lines 325-329: refresh, onGet hook, return _val.
      let _ ← exec fuel (.refresh id)
      let s ← getS
      let c := cellAt s id
      match s.trackFrames with
      | [] => pure (.val (c.val.getD .undefined))
      | f :: rest => do
        setS { s with trackFrames := mapSet f id c.revision :: rest }
        pure (.val (c.val.getD .undefined))
    | .attachInputs id => do
      -- Observable.attachInputs, lines 395-410.
      let s ← getS
      let c := cellAt s id
      if c.attached then pure .unit
      else do
        modS (fun s => updCell s id (fun c => { c with attached := true }))
        let _ ← exec fuel (.attachList id c.inputs)
        let _ ← exec fuel (.refresh id)
        pure .unit
    | .attachList selfId l =>
      match l with
      | [] => pure .unit
      | i :: rest => do
        modS (fun s => updCell s i (fun c => { c with outputs := c.outputs ++ [selfId] }))
        let _ ← exec fuel (.attachInputs i)
        exec fuel (.attachList selfId rest)
    | .detachInputs id => do
      -- Observable.detachInputs, lines 412-424.
      let s ← getS
      let c := cellAt s id
      if c.attached then do
        modS (fun s => updCell s id (fun c => { c with attached := false }))
        exec fuel (.detachList id c.inputs)
      else pure .unit
    | .detachList selfId l =>
      match l with
      | [] => pure .unit
      | i :: rest => do
        modS (fun s => updCell s i (fun c => { c with outputs := spliceRemove c.outputs selfId }))
        let s ← getS
        if isObserved (cellAt s i) then exec fuel (.detachList selfId rest)
        else do
          let _ ← exec fuel (.detachInputs i)
          exec fuel (.detachList selfId rest)
    | .addToBatchRec id => do
      -- Observable.addToBatch, lines 448-458.
      let s ← getS
      let c := cellAt s id
      if c.dirty then pure .unit
      else do
        modS (fun s => updCell s id (fun c => { c with dirty := true }))
        let _ ← exec fuel (.addOutsToBatch c.outputs)
        modS (fun s => { s with dirtyObservables := s.dirtyObservables ++ [id] })
        pure .unit
    | .addOutsToBatch l =>
      match l with
      | [] => pure .unit
      | o :: rest => do
        let _ ← exec fuel (.addToBatchRec o)
        exec fuel (.addOutsToBatch rest)
    | .markAsDirty id => do
      -- Observable.markAsDirty, lines 443-446.
      modS (fun s => { s with globalRevision := s.globalRevision + 1 })
      exec fuel (.batchRun (.addToBatch id))
    | .setValue id v => do
      -- WritableObservable.set, lines 507-510.
      modS (fun s => updCell s id (fun c => { c with next := some v }))
      exec fuel (.markAsDirty id)
    | .batchRun p =>
      -- Observable.batch, lines 460-495 (batchedUpdateFn is undefined).
      tryFinallyM
        (do
          modS (fun s => { s with batchDepth := s.batchDepth + 1 })
          exec fuel (.runProg p))
        (do
          modS (fun s => { s with batchDepth := s.batchDepth - 1 })
          let s ← getS
          if s.batchDepth == 0 then do
            setS { s with dirtyObservables := [] }
            let _ ← exec fuel (.flushLoop s.dirtyObservables.reverse)
            pure ()
          else pure ())
    | .runProg p =>
      match p with
      | .skip => pure .unit
      | .seq a b => do
        let _ ← exec fuel (.runProg a)
        exec fuel (.runProg b)
      | .setP id v => exec fuel (.setValue id v)
      | .getP id => exec fuel (.get id)
      | .addToBatch id => exec fuel (.addToBatchRec id)
      | .batchP q => exec fuel (.batchRun q)
    | .flushLoop l =>
      -- The flush of Observable.batch, lines 466-486: the pending list is
      -- iterated from its last element to its first, i.e. reversed.
      match l with
      | [] => pure .unit
      | id :: rest => do
        let s ← getS
        let prevVal := (cellAt s id).val.getD .undefined
        let r ← exec fuel (.refresh id)
        let s' ← getS
        let c' := cellAt s' id
        modS (fun s => updCell s id (fun c => { c with dirty := false }))
        if toBool r then do
          let _ ← notifyListeners id c'.listeners (c'.val.getD .undefined) prevVal
          exec fuel (.flushLoop rest)
        else exec fuel (.flushLoop rest)

/-- `Observable.subscribe` (lines 360-374): push the listener, then
`attachInputs`. -/
def subscribeRun (fuel : Nat) (id lid : Nat) : EngM RVal := do
  modS (fun s => updCell s id (fun c => { c with listeners := c.listeners ++ [lid] }))
  exec fuel (.attachInputs id)

/-- The unsubscriber closure returned by `subscribe` (first invocation):
splice the listener out, then `detachInputs` if no longer observed. -/
def unsubscribeRun (fuel : Nat) (id lid : Nat) : EngM RVal := do
  modS (fun s => updCell s id (fun c => { c with listeners := spliceRemove c.listeners lid }))
  let s ← getS
  if isObserved (cellAt s id) then pure .unit
  else exec fuel (.detachInputs id)

/-- `observable(defaultVal, options)`. -/
abbrev mkWritable (d : JSVal) (eq : Option EqFn := none) : Cell :=
  { kind := .writable, defaultVal := d, equalityFn := eq }

/-- `derived(compute, options)`. -/
abbrev mkDerived (cp : Comp) (eq : Option EqFn := none) : Cell :=
  { kind := .derived, compute := cp, equalityFn := eq }

abbrev initState (cells : List Cell) (specs : List ListenerSpec := []) : EngineState :=
  { cells := cells, listenerSpecs := specs }

/-! ### Concrete scenarios used by the claims -/

/-- The diamond of the spec's testable property: `a = observable(0)` (cell
0), `b = derived(() => a.get())` (cell 1), `c = derived(() => a.get())`
(cell 2), `d = derived(() => b.get() + c.get())` (cell 3). -/
abbrev diamondCells : List Cell :=
  [mkWritable (.num 0), mkDerived (.getCell 0), mkDerived (.getCell 0),
   mkDerived (.add (.getCell 1) (.getCell 2))]

/-- Diamond, natural wiring: subscribe a listener to `d`, then
`batch(() => a.set(5))`. -/
def diamondSubscribeFirst : Res RVal × EngineState :=
  (do
    let _ ← subscribeRun 12 3 0
    exec 12 (.batchRun (.setP 0 (.num 5)))) (initState diamondCells [⟨false⟩])

/-- Two-cell graph for the attachment invariant: cell 0 is
`e = derived(() => 1)`, cell 1 is `d = derived(() => e.get())`; a listener
subscribes to `d` before `d` was ever evaluated. -/
def attachInvRun : Res RVal × EngineState :=
  subscribeRun 8 1 0
    (initState [mkDerived (.const (.num 1)), mkDerived (.getCell 0)] [⟨false⟩])

/-- Listener-throw scenario: writable cells 0 and 1; listener 0 (throws)
and listener 1 subscribe to cell 1, listener 2 subscribes to cell 0; one
batch sets cell 0 then cell 1, so the flush (reverse order) reaches
cell 1 first. -/
def listenerThrowRun : Res RVal × EngineState :=
  (do
    let _ ← subscribeRun 9 1 0
    let _ ← subscribeRun 9 1 1
    let _ ← subscribeRun 9 0 2
    exec 9 (.batchRun (.seq (.setP 0 (.num 7)) (.setP 1 (.num 9)))))
    (initState [mkWritable (.num 0), mkWritable (.num 0)] [⟨true⟩, ⟨false⟩, ⟨false⟩])

/-- `w = observable(0, { equalityFn: (a, b) => true })`; `w.get()`;
`w.set(1)`; `w.get()`. -/
def eqFnSetGetRun : Res RVal × EngineState :=
  (do
    let _ ← exec 6 (.get 0)
    let _ ← exec 6 (.setValue 0 (.num 1))
    exec 6 (.get 0)) (initState [mkWritable (.num 0) (some .alwaysTrue)])

/-- Fresh cell: `w = observable(d)`; `w.set(v)`; `w.get()`. -/
def setGetFresh (fuel : Nat) (d v : Int) : Res RVal × EngineState :=
  (do
    let _ ← exec fuel (.setValue 0 (.num v))
    exec fuel (.get 0)) (initState [mkWritable (.num d)])

/-- Materialized cell: `w = observable(d)`; `w.get()`; `w.set(v)`;
`w.get()`. -/
def setGetMaterialized (fuel : Nat) (d v : Int) : Res RVal × EngineState :=
  (do
    let _ ← exec fuel (.get 0)
    let _ ← exec fuel (.setValue 0 (.num v))
    exec fuel (.get 0)) (initState [mkWritable (.num d)])

/-- Open batch: `w = observable(d)`; `w.get()`;
`batch(() => { w.set(v); w.get() })` — the run's value is the inner
`get`'s result. -/
def setGetInBatch (fuel : Nat) (d v : Int) : Res RVal × EngineState :=
  (do
    let _ ← exec fuel (.get 0)
    exec fuel (.batchRun (.seq (.setP 0 (.num v)) (.getP 0)))) (initState [mkWritable (.num d)])

/-- The C10 scenario: `w = observable(0)` with a subscribed listener;
`batch(() => { w.set(v); w.get() })`. -/
def setGetInBatchSubscribed (fuel : Nat) (v : Int) : Res RVal × EngineState :=
  (do
    let _ ← subscribeRun fuel 0 0
    exec fuel (.batchRun (.seq (.setP 0 (.num v)) (.getP 0))))
    (initState [mkWritable (.num 0)] [⟨false⟩])

/-- A single-cell state for the change-detection behaviour of `refresh`:
a materialized writable cell with a staged next value, marked dirty, with
a stale `refreshRevision`. -/
def refreshChangeState (a b : JSVal) (eq : Option EqFn) (r g rv : Int) (att : Bool) :
    EngineState :=
  { cells := [{ kind := .writable, val := some a, next := some b, dirty := true,
                equalityFn := eq, refreshRevision := r, revision := rv, attached := att }],
    globalRevision := g }

/-- A three-cell state for exception propagation out of a derived
computation: cell 2 is a memoized derived cell whose compute function
reads cell 0 and then throws, with a recorded dependency on cell 1 whose
revision has moved on (forcing the slow path). -/
def throwComputeState (ac bc : Cell) (oldv m : JSVal) (p g rr drv : Int) (dd : Bool)
    (deq : Option EqFn) (dls douts : List Nat) (k : Nat) (tf : List (List (Nat × Int)))
    (dob : List Nat) (bd : Nat) (lg : List LogEntry) (ls : List ListenerSpec) : EngineState :=
  { cells := [ac, bc,
      { kind := .derived, val := some oldv, equalityFn := deq, listeners := dls,
        inputs := [1], outputs := douts, revision := drv, refreshRevision := rr,
        attached := false, dirty := dd,
        compute := .add (.getCell 0) .throwErr,
        prevInputs := [(1, p)], memoized := some m, computeRuns := k }],
    listenerSpecs := ls, dirtyObservables := dob, batchDepth := bd,
    globalRevision := g, trackFrames := tf, log := lg }

/-! ### Intermediate states of the concrete scenarios

Each abbreviation below is the engine state at a specific point of one of
the scenario runs above; the evaluation theorems step through them. -/

/-- Cell 0 of the diamond after first materialization (`a` holding 0). -/
abbrev w0mat : Cell :=
  { kind := .writable, val := some (.num 0), revision := 0, refreshRevision := 0,
    defaultVal := .num 0 }

/-- Cells 1 / 2 of the diamond after their first evaluation. -/
abbrev bcDone : Cell :=
  { kind := .derived, val := some (.num 0), inputs := [0], revision := 0, refreshRevision := 0,
    compute := .getCell 0, prevInputs := [(0, 0)], memoized := some (.num 0), computeRuns := 1 }

/-- Cell 3 of the diamond mid-evaluation: listener pushed, attached,
`refreshRevision` stamped, compute function entered. -/
abbrev d3pre : Cell :=
  { kind := .derived, listeners := [0], attached := true, refreshRevision := 0,
    compute := .add (.getCell 1) (.getCell 2), computeRuns := 1 }

abbrev sPre : EngineState :=
  { cells := [mkWritable (.num 0), mkDerived (.getCell 0), mkDerived (.getCell 0), d3pre],
    listenerSpecs := [⟨false⟩], trackFrames := [[]] }

abbrev sMid1 : EngineState :=
  { cells := [w0mat, bcDone, mkDerived (.getCell 0), d3pre],
    listenerSpecs := [⟨false⟩], trackFrames := [[(1, 0)]] }

abbrev sMid2 : EngineState :=
  { cells := [w0mat, bcDone, bcDone, d3pre],
    listenerSpecs := [⟨false⟩], trackFrames := [[(1, 0), (2, 0)]] }

/-- The diamond after `d.subscribe(listener)`: note `a` (cell 0) has
empty `outputs` and is unattached — `addInput` installed back-references
only for `d`'s direct inputs `b`, `c`, which were discovered while `d`
was already attached, and never propagated attachment further down. -/
abbrev diaMid : EngineState :=
  { cells :=
      [w0mat,
       { bcDone with outputs := [3] },
       { bcDone with outputs := [3] },
       { kind := .derived, val := some (.num 0), listeners := [0], inputs := [1, 2],
         revision := 0, refreshRevision := 0, attached := true,
         compute := .add (.getCell 1) (.getCell 2),
         prevInputs := [(1, 0), (2, 0)], memoized := some (.num 0), computeRuns := 1 }],
    listenerSpecs := [⟨false⟩] }

/-- The diamond after `batch(() => a.set(5))` in the subscribe-first
wiring: `a` now holds 5 but `b`, `c`, `d` were never re-evaluated (their
values are stale at 0) and no listener ran. -/
abbrev diaFinal : EngineState :=
  { cells :=
      [{ kind := .writable, val := some (.num 5), revision := 1, refreshRevision := 1,
         defaultVal := .num 0 },
       { bcDone with outputs := [3] },
       { bcDone with outputs := [3] },
       { kind := .derived, val := some (.num 0), listeners := [0], inputs := [1, 2],
         revision := 0, refreshRevision := 0, attached := true,
         compute := .add (.getCell 1) (.getCell 2),
         prevInputs := [(1, 0), (2, 0)], memoized := some (.num 0), computeRuns := 1 }],
    listenerSpecs := [⟨false⟩], globalRevision := 1 }

/-- Both writables of the listener-throw scenario after the three
subscriptions (materialized at 0, attached). -/
abbrev ltMid : EngineState :=
  { cells :=
      [{ kind := .writable, val := some (.num 0), listeners := [2], attached := true,
         revision := 0, refreshRevision := 0, defaultVal := .num 0 },
       { kind := .writable, val := some (.num 0), listeners := [0, 1], attached := true,
         revision := 0, refreshRevision := 0, defaultVal := .num 0 }],
    listenerSpecs := [⟨true⟩, ⟨false⟩, ⟨false⟩] }

/-- The listener-throw scenario after the batch: cell 1 was refreshed to
9 and its first (throwing) listener ran; cell 0 was never flushed (it
still has its staged 7 and its dirty flag), and listeners 1 and 2 never
ran. -/
abbrev ltFinal : EngineState :=
  { cells :=
      [{ kind := .writable, val := some (.num 0), listeners := [2], attached := true,
         revision := 0, refreshRevision := 0, defaultVal := .num 0,
         next := some (.num 7), dirty := true },
       { kind := .writable, val := some (.num 9), listeners := [0, 1], attached := true,
         revision := 2, refreshRevision := 2, defaultVal := .num 0 }],
    listenerSpecs := [⟨true⟩, ⟨false⟩, ⟨false⟩],
    globalRevision := 2,
    log := [⟨1, 0, .num 9, .num 0⟩] }

/-- The equality-function scenario after the first `get`. -/
abbrev eqMid1 : EngineState :=
  { cells := [{ kind := .writable, equalityFn := some .alwaysTrue, val := some (.num 0),
                revision := 0, refreshRevision := 0, defaultVal := .num 0 }] }

/-- The equality-function scenario after `set(1)` flushed: `alwaysTrue`
made `refresh` keep the old 0. -/
abbrev eqMid2 : EngineState :=
  { cells := [{ kind := .writable, equalityFn := some .alwaysTrue, val := some (.num 0),
                revision := 0, refreshRevision := 1, defaultVal := .num 0 }],
    globalRevision := 1 }

/-- The attachment-invariant scenario after `d.subscribe(listener)`:
cell 0 (`e`) has the attached output `d` but `attached = false`. -/
abbrev attachInvFinal : EngineState :=
  { cells :=
      [{ kind := .derived, val := some (.num 1), outputs := [1], revision := 0,
         refreshRevision := 0, compute := .const (.num 1), memoized := some (.num 1),
         computeRuns := 1 },
       { kind := .derived, val := some (.num 1), listeners := [0], inputs := [0],
         revision := 0, refreshRevision := 0, attached := true, compute := .getCell 0,
         prevInputs := [(0, 0)], memoized := some (.num 1), computeRuns := 1 }],
    listenerSpecs := [⟨false⟩] }

/-- The single-subscribed-writable state reached inside the C10 scenario
after `subscribe` (cell materialized at 0 and attached). -/
abbrev subscribedW : EngineState :=
  { cells := [{ kind := .writable, val := some (.num 0), listeners := [0], attached := true,
                revision := 0, refreshRevision := 0, defaultVal := .num 0 }],
    listenerSpecs := [⟨false⟩] }

/-- A two-cell state instantiating the memoization fast path: cell 1 is a
derived cell memoized at 3 whose only recorded input (cell 0, recorded at
revision 7) is current. -/
abbrev fastpathWitnessState : EngineState :=
  { cells :=
      [{ kind := .writable, val := some (.num 4), revision := 7, refreshRevision := 0 },
       { kind := .derived, val := some (.num 3), compute := .getCell 0,
         prevInputs := [(0, 7)], memoized := some (.num 3), computeRuns := 1 }] }

/-! ### Evaluation lemmas for the concrete scenarios -/

set_option maxHeartbeats 2000000

theorem dGet1 : exec 7 (.get 1) sPre = (.ok (.val (.num 0)), sMid1) := by
  simp [-Prod.mk_zero_zero, -Prod.mk_one_one, exec, bindE, pureE, getS, setS, modS, cellAt,
        updCell, writeCell, tryFinallyM, toVal, toBool, jsStrictEq, jsAdd, mapSet, mapHas,
        mapDelete, spliceRemove, rewireNew, removeStale, removeStaleList, addInputFn,
        removeInputFn, isObserved, notifyListeners, throwE, noFuel]

theorem dGet2 : exec 7 (.get 2) sMid1 = (.ok (.val (.num 0)), sMid2) := by
  simp [-Prod.mk_zero_zero, -Prod.mk_one_one, exec, bindE, pureE, getS, setS, modS, cellAt,
        updCell, writeCell, tryFinallyM, toVal, toBool, jsStrictEq, jsAdd, mapSet, mapHas,
        mapDelete, spliceRemove, rewireNew, removeStale, removeStaleList, addInputFn,
        removeInputFn, isObserved, notifyListeners, throwE, noFuel]

theorem dSubscribe :
    subscribeRun 12 3 0 (initState diamondCells [⟨false⟩]) = (.ok .unit, diaMid) := by
  rw [subscribeRun]
  simp [-Prod.mk_zero_zero, -Prod.mk_one_one, bindE, modS, getS, setS, pureE, cellAt,
        updCell, writeCell, toBool, toVal]
  rw [exec]
  simp [-Prod.mk_zero_zero, -Prod.mk_one_one, bindE, modS, getS, setS, pureE, cellAt,
        updCell, writeCell, toBool, toVal]
  rw [exec]
  simp [-Prod.mk_zero_zero, -Prod.mk_one_one, bindE, modS, getS, setS, pureE, cellAt,
        updCell, writeCell, toBool, toVal]
  rw [exec]
  simp [-Prod.mk_zero_zero, -Prod.mk_one_one, bindE, modS, getS, setS, pureE, cellAt,
        updCell, writeCell, toBool, toVal]
  rw [exec]
  simp [-Prod.mk_zero_zero, -Prod.mk_one_one, bindE, modS, getS, setS, pureE, cellAt,
        updCell, writeCell, toBool, toVal, tryFinallyM]
  rw [exec]
  simp [-Prod.mk_zero_zero, -Prod.mk_one_one, bindE, modS, getS, setS, pureE, cellAt,
        updCell, writeCell, toBool, toVal]
  rw [exec]
  try simp [-Prod.mk_zero_zero, -Prod.mk_one_one, bindE, modS, getS, setS, pureE, cellAt,
        updCell, writeCell, toBool, toVal]
  rw [dGet1]
  simp [-Prod.mk_zero_zero, -Prod.mk_one_one, bindE, modS, getS, setS, pureE, cellAt,
        updCell, writeCell, toBool, toVal]
  rw [exec]
  try simp [-Prod.mk_zero_zero, -Prod.mk_one_one, bindE, modS, getS, setS, pureE, cellAt,
        updCell, writeCell, toBool, toVal]
  rw [dGet2]
  simp [-Prod.mk_zero_zero, -Prod.mk_one_one, bindE, modS, getS, setS, pureE, cellAt,
        updCell, writeCell, toBool, toVal, mapSet, mapHas, mapDelete, spliceRemove,
        rewireNew, removeStale, removeStaleList, addInputFn, removeInputFn, isObserved,
        jsAdd, jsStrictEq, tryFinallyM]

theorem dBatch :
    exec 12 (.batchRun (.setP 0 (.num 5))) diaMid = (.ok .unit, diaFinal) := by
  simp [-Prod.mk_zero_zero, -Prod.mk_one_one, exec, bindE, pureE, getS, setS, modS, cellAt,
        updCell, writeCell, tryFinallyM, toVal, toBool, jsStrictEq, jsAdd, mapSet, mapHas,
        mapDelete, spliceRemove, rewireNew, removeStale, removeStaleList, addInputFn,
        removeInputFn, isObserved, notifyListeners, throwE, noFuel]

/-- Step a `bindE` whose first component's run is known. -/
theorem bindStep {α β : Type} (m : EngM α) (f : α → EngM β) (s s₁ : EngineState) (a : α)
    (r : Res β × EngineState) (h1 : m s = (.ok a, s₁)) (h2 : f a s₁ = r) :
    bindE m f s = r := by
  unfold bindE
  rw [h1]
  exact h2

theorem diamondSubFirst_eval : diamondSubscribeFirst = (.ok .unit, diaFinal) := by
  simp only [diamondSubscribeFirst, bind_eq]
  exact bindStep _ _ _ _ _ _ dSubscribe dBatch

theorem attachInv_eval : attachInvRun = (.ok .unit, attachInvFinal) := by
  simp [-Prod.mk_zero_zero, -Prod.mk_one_one, attachInvRun, exec, subscribeRun, bindE,
        pureE, getS, setS, modS, cellAt, updCell, writeCell, tryFinallyM, toVal, toBool,
        jsStrictEq, jsAdd, mapSet, mapHas, mapDelete, spliceRemove, rewireNew, removeStale,
        removeStaleList, addInputFn, removeInputFn, isObserved, notifyListeners, throwE,
        noFuel]

theorem ltSub1 :
    subscribeRun 9 1 0 (initState [mkWritable (.num 0), mkWritable (.num 0)]
        [⟨true⟩, ⟨false⟩, ⟨false⟩]) =
      (.ok .unit,
       { cells :=
           [mkWritable (.num 0),
            { kind := .writable, val := some (.num 0), listeners := [0], attached := true,
              revision := 0, refreshRevision := 0, defaultVal := .num 0 }],
         listenerSpecs := [⟨true⟩, ⟨false⟩, ⟨false⟩] }) := by
  simp [-Prod.mk_zero_zero, -Prod.mk_one_one, subscribeRun, exec, bindE, pureE, getS, setS,
        modS, cellAt, updCell, writeCell, tryFinallyM, toVal, toBool, isObserved]

theorem ltSub2 :
    subscribeRun 9 1 1
      { cells :=
          [mkWritable (.num 0),
           { kind := .writable, val := some (.num 0), listeners := [0], attached := true,
             revision := 0, refreshRevision := 0, defaultVal := .num 0 }],
        listenerSpecs := [⟨true⟩, ⟨false⟩, ⟨false⟩] } =
      (.ok .unit,
       { cells :=
           [mkWritable (.num 0),
            { kind := .writable, val := some (.num 0), listeners := [0, 1], attached := true,
              revision := 0, refreshRevision := 0, defaultVal := .num 0 }],
         listenerSpecs := [⟨true⟩, ⟨false⟩, ⟨false⟩] }) := by
  simp [-Prod.mk_zero_zero, -Prod.mk_one_one, subscribeRun, exec, bindE, pureE, getS, setS,
        modS, cellAt, updCell, writeCell, tryFinallyM, toVal, toBool, isObserved]

theorem ltSub3 :
    subscribeRun 9 0 2
      { cells :=
          [mkWritable (.num 0),
           { kind := .writable, val := some (.num 0), listeners := [0, 1], attached := true,
             revision := 0, refreshRevision := 0, defaultVal := .num 0 }],
        listenerSpecs := [⟨true⟩, ⟨false⟩, ⟨false⟩] } =
      (.ok .unit, ltMid) := by
  simp [-Prod.mk_zero_zero, -Prod.mk_one_one, subscribeRun, exec, bindE, pureE, getS, setS,
        modS, cellAt, updCell, writeCell, tryFinallyM, toVal, toBool, isObserved]

theorem ltBatch :
    exec 9 (.batchRun (.seq (.setP 0 (.num 7)) (.setP 1 (.num 9)))) ltMid =
      (.thrown, ltFinal) := by
  simp [-Prod.mk_zero_zero, -Prod.mk_one_one, exec, bindE, pureE, getS, setS, modS, cellAt,
        updCell, writeCell, tryFinallyM, toVal, toBool, jsStrictEq, jsAdd, mapSet, mapHas,
        mapDelete, spliceRemove, rewireNew, removeStale, removeStaleList, addInputFn,
        removeInputFn, isObserved, notifyListeners, throwE, noFuel]

theorem listenerThrow_eval : listenerThrowRun = (.thrown, ltFinal) := by
  simp only [listenerThrowRun, bind_eq]
  refine bindStep _ _ _ _ _ _ ltSub1 ?_
  refine bindStep _ _ _ _ _ _ ltSub2 ?_
  exact bindStep _ _ _ _ _ _ ltSub3 ltBatch

theorem eqGet1 :
    exec 6 (.get 0) (initState [mkWritable (.num 0) (some .alwaysTrue)]) =
      (.ok (.val (.num 0)), eqMid1) := by
  simp [-Prod.mk_zero_zero, -Prod.mk_one_one, exec, bindE, pureE, getS, setS, modS, cellAt,
        updCell, writeCell, tryFinallyM, toVal, toBool]

theorem eqSet :
    exec 6 (.setValue 0 (.num 1)) eqMid1 = (.ok .unit, eqMid2) := by
  simp [-Prod.mk_zero_zero, -Prod.mk_one_one, exec, bindE, pureE, getS, setS, modS, cellAt,
        updCell, writeCell, tryFinallyM, toVal, toBool, jsStrictEq, applyEqFn,
        notifyListeners]

theorem eqGet2 :
    exec 6 (.get 0) eqMid2 = (.ok (.val (.num 0)), eqMid2) := by
  simp [-Prod.mk_zero_zero, -Prod.mk_one_one, exec, bindE, pureE, getS, setS, modS, cellAt,
        updCell, writeCell, tryFinallyM, toVal, toBool]

theorem eqFnSetGet_eval : eqFnSetGetRun = (.ok (.val (.num 0)), eqMid2) := by
  simp only [eqFnSetGetRun, bind_eq]
  refine bindStep _ _ _ _ _ _ eqGet1 ?_
  exact bindStep _ _ _ _ _ _ eqSet eqGet2

/-! ### Generic lemmas about `refresh` and the fast path -/

/-- `refresh` is a no-op returning `false` when the cell was already
refreshed at the current global revision (line 334). -/
theorem refresh_noop (fuel : Nat) (id : Nat) (s : EngineState)
    (h : (cellAt s id).refreshRevision = s.globalRevision) :
    exec (fuel + 1) (.refresh id) s = (.ok (.bool false), s) := by
  simp [exec, bindE, pureE, getS, h]

/-- The fast-path loop of `DerivedObservable.evaluate`: when every
recorded input is already refreshed at the current revision and its
revision equals the recorded one, the loop reports no change and leaves
the state untouched. -/
theorem checkPrevInputs_all_current (fuel : Nat) (l : List (Nat × Int)) (s : EngineState)
    (h : ∀ p ∈ l, (cellAt s p.1).refreshRevision = s.globalRevision ∧
         (cellAt s p.1).revision = p.2) :
    exec (fuel + l.length + 1) (.checkPrevInputs l) s = (.ok (.bool false), s) := by
  induction l with
  | nil => simp [exec, pureE]
  | cons p rest ih =>
    obtain ⟨h1, h2⟩ := h p (by simp)
    have harith : fuel + (p :: rest).length + 1 = (fuel + rest.length + 1) + 1 := by
      simp [List.length_cons]
      ring
    rw [harith]
    cases p with
    | mk i r =>
      rw [exec]
      simp only [bind_eq, pure_eq, bindE, pureE, getS]
      rw [refresh_noop (fuel + rest.length) i s h1]
      simp only [h2, beq_self_eq_true, if_true]
      exact ih (fun p hp => h p (List.mem_cons_of_mem _ hp))

/-! ### Remaining evaluation helpers -/

theorem setGetFresh_eval (fuel : Nat) (d v : Int) :
    (setGetFresh (fuel + 6) d v).1 = .ok (.val (.num v)) := by
  simp [setGetFresh, exec, bindE, pureE, getS, setS, modS, cellAt, updCell, writeCell,
        tryFinallyM, toVal, toBool, notifyListeners]

theorem setGetMaterialized_eval (fuel : Nat) (d v : Int) :
    (setGetMaterialized (fuel + 6) d v).1 = .ok (.val (.num v)) := by
  by_cases hdv : d = v
  · subst hdv
    simp [setGetMaterialized, exec, bindE, pureE, getS, setS, modS, cellAt, updCell,
          writeCell, tryFinallyM, toVal, toBool, jsStrictEq, notifyListeners]
  · simp [setGetMaterialized, exec, bindE, pureE, getS, setS, modS, cellAt, updCell,
          writeCell, tryFinallyM, toVal, toBool, jsStrictEq, notifyListeners, hdv]

theorem setGetInBatch_eval (fuel : Nat) (d v : Int) :
    (setGetInBatch (fuel + 9) d v).1 = .ok (.val (.num v)) := by
  by_cases hdv : d = v
  · subst hdv
    simp [setGetInBatch, exec, bindE, pureE, getS, setS, modS, cellAt, updCell, writeCell,
          tryFinallyM, toVal, toBool, jsStrictEq, notifyListeners]
  · simp [setGetInBatch, exec, bindE, pureE, getS, setS, modS, cellAt, updCell, writeCell,
          tryFinallyM, toVal, toBool, jsStrictEq, notifyListeners, hdv]

theorem subscribeW_eval (fuel : Nat) :
    subscribeRun (fuel + 4) 0 0 (initState [mkWritable (.num 0)] [⟨false⟩]) =
      (.ok .unit, subscribedW) := by
  simp [subscribeRun, exec, bindE, pureE, getS, setS, modS, cellAt, updCell, writeCell,
        toVal, toBool]

theorem inBatchSetGet_eval (fuel : Nat) (v : Int) (h0 : ¬((0 : Int) = v)) :
    (exec (fuel + 9) (.batchRun (.seq (.setP 0 (.num v)) (.getP 0))) subscribedW).1 =
        .ok (.val (.num v)) ∧
    (exec (fuel + 9) (.batchRun (.seq (.setP 0 (.num v)) (.getP 0))) subscribedW).2.log
        = [] ∧
    (cellAt (exec (fuel + 9) (.batchRun (.seq (.setP 0 (.num v)) (.getP 0)))
        subscribedW).2 0).val = some (.num v) ∧
    (cellAt (exec (fuel + 9) (.batchRun (.seq (.setP 0 (.num v)) (.getP 0)))
        subscribedW).2 0).refreshRevision =
      (exec (fuel + 9) (.batchRun (.seq (.setP 0 (.num v)) (.getP 0)))
        subscribedW).2.globalRevision := by
  refine ⟨?_, ?_, ?_, ?_⟩ <;>
  simp [exec, bindE, pureE, getS, setS, modS, cellAt, updCell, writeCell, tryFinallyM,
        toVal, toBool, jsStrictEq, notifyListeners, h0]

/-! ### The claims -/

/-- Claim C1 (code bug).  The claim says that for the diamond
`b = derived(() => a.get())`, `c = derived(() => a.get())`,
`d = derived(() => b.get() + c.get())`, a single `a.set(5)` inside one
batch invokes `d`'s listener exactly once.  On the code it is invoked
ZERO times when the listener was subscribed before the graph was first
evaluated (the natural wiring): `subscribe` runs `d`'s first evaluation
while `d` is already attached, so `addInput` records only the one-level
back-references `b.outputs = c.outputs = [d]` and never attaches `b`/`c`
to `a` — `a.outputs` stays empty, `a.set(5)` marks only `a` dirty, and
the flush updates `a` to 5 while `d` keeps its stale 0 and its listener
never fires (the log stays empty). -/
theorem claim1_diamond_single_set_listener_never_fires :
    diamondSubscribeFirst.1 = .ok .unit ∧
    diamondSubscribeFirst.2.log = [] ∧
    (cellAt diamondSubscribeFirst.2 0).val = some (.num 5) ∧
    (cellAt diamondSubscribeFirst.2 3).val = some (.num 0) ∧
    (cellAt diamondSubscribeFirst.2 0).outputs = [] := by
  rw [diamondSubFirst_eval]
  decide

/-- Claim C3, counterexample.  With a caller-supplied
`equalityFn = (a, b) => true`, `w.get()` immediately after `w.set(1)` on
a materialized cell returns the old 0, not 1: `refresh` computes the
staged 1 but the equality function reports it equal, so `_val` keeps 0. -/
theorem claim3_cex_equalityFn_swallows_set :
    eqFnSetGetRun.1 = .ok (.val (.num 0)) ∧
    ¬(eqFnSetGetRun.1 = .ok (.val (.num 1))) := by
  rw [eqFnSetGet_eval]
  decide

/-- Claim C3, amended.  For a writable cell WITHOUT a caller-supplied
equality function, `w.get()` immediately after `w.set(v)` returns `v` in
each applicable regime: on a fresh cell (implicit single-write batch
flushes before the get), on a materialized cell, and inside a still-open
batch (where `refresh` sees the dirty flag and `evaluate` consumes the
staged value). -/
theorem claim3_amended_get_after_set_returns_staged (fuel : Nat) (d v : Int) :
    (setGetFresh (fuel + 6) d v).1 = .ok (.val (.num v)) ∧
    (setGetMaterialized (fuel + 6) d v).1 = .ok (.val (.num v)) ∧
    (setGetInBatch (fuel + 9) d v).1 = .ok (.val (.num v)) :=
  ⟨setGetFresh_eval fuel d v, setGetMaterialized_eval fuel d v, setGetInBatch_eval fuel d v⟩

/-- Claim C4 (confirmed).  `DerivedObservable.evaluate` fast path: if the
cell is memoized and every previously recorded input, once refreshed, has
the revision recorded at the last evaluation (here: the inputs are
already current at this global revision and their revisions match the
recorded ones), `evaluate` returns the memoized value and changes nothing
at all — in particular the user compute function is not re-run
(`computeRuns` is untouched, as the whole state is unchanged). -/
theorem claim4_fastpath_returns_memoized_without_recompute (fuel : Nat) (j : Nat)
    (s : EngineState) (m : JSVal)
    (hk : (cellAt s j).kind = .derived)
    (hm : (cellAt s j).memoized = some m)
    (h : ∀ p ∈ (cellAt s j).prevInputs, (cellAt s p.1).refreshRevision = s.globalRevision ∧
         (cellAt s p.1).revision = p.2) :
    exec (fuel + (cellAt s j).prevInputs.length + 2) (.evaluate j) s = (.ok (.val m), s) := by
  have harith : fuel + (cellAt s j).prevInputs.length + 2 =
      (fuel + (cellAt s j).prevInputs.length + 1) + 1 := rfl
  rw [harith, exec]
  simp only [bind_eq, pure_eq, bindE, pureE, getS, hk, hm]
  rw [checkPrevInputs_all_current fuel _ s h]
  simp [toBool, pureE, hm]

/-- Concrete instance of the C4 fast path. -/
theorem claim4_fastpath_returns_memoized_without_recompute_witness :
    ((cellAt fastpathWitnessState 1).kind = .derived ∧
     (cellAt fastpathWitnessState 1).memoized = some (.num 3) ∧
     (∀ p ∈ (cellAt fastpathWitnessState 1).prevInputs,
        (cellAt fastpathWitnessState p.1).refreshRevision =
            fastpathWitnessState.globalRevision ∧
        (cellAt fastpathWitnessState p.1).revision = p.2)) ∧
    exec (0 + (cellAt fastpathWitnessState 1).prevInputs.length + 2) (.evaluate 1)
        fastpathWitnessState = (.ok (.val (.num 3)), fastpathWitnessState) :=
  ⟨⟨by decide, by decide, by decide⟩,
   claim4_fastpath_returns_memoized_without_recompute 0 1 fastpathWitnessState (.num 3)
     (by decide) (by decide) (by decide)⟩

/-- Claim C6 (code bug).  The claim says `attached == true` iff the cell
has a listener or an attached output, transitively.  On the code, after
`e = derived(() => 1)`, `d = derived(() => e.get())`, `d.subscribe(l)`:
`d` is attached with the listener, `e` carries the attached output `d`
in `e.outputs`, yet `e.attached = false` — `addInput` (called while `d`
was already attached) installs the back-reference without propagating
attachment. -/
theorem claim6_attached_invariant_violated :
    attachInvRun.1 = .ok .unit ∧
    (cellAt attachInvRun.2 1).attached = true ∧
    (cellAt attachInvRun.2 1).listeners = [0] ∧
    (cellAt attachInvRun.2 0).outputs = [1] ∧
    (cellAt attachInvRun.2 0).attached = false := by
  rw [attachInv_eval]
  decide

/-- Claim C7 (confirmed).  If the compute function of a derived cell
throws during evaluation (here after reading cell 0), the exception
propagates out of `get()`; the cell keeps its cached value, its memoized
value, its recorded inputs `prevInputs` and its `inputs` edges exactly as
they were, and the ambient `onGet` tracking stack is restored — the only
traces are the already-stamped `refreshRevision` and the instrumentation
counter for the attempted compute run. -/
theorem claim7_compute_throw_leaves_cell_intact (fuel : Nat) (ac bc : Cell)
    (oldv m : JSVal) (p g rr drv : Int) (dd : Bool) (deq : Option EqFn)
    (dls douts : List Nat) (k : Nat) (tf : List (List (Nat × Int))) (dob : List Nat)
    (bd : Nat) (lg : List LogEntry) (ls : List ListenerSpec)
    (hrr : rr ≠ g) (ha : ac.refreshRevision = g) (hb : bc.refreshRevision = g)
    (hbp : bc.revision ≠ p) :
    exec (fuel + 7) (.get 2)
        (throwComputeState ac bc oldv m p g rr drv dd deq dls douts k tf dob bd lg ls) =
      (.thrown,
       throwComputeState ac bc oldv m p g g drv dd deq dls douts (k + 1) tf dob bd lg ls) := by
  simp [exec, throwComputeState, bindE, pureE, getS, setS, modS, cellAt, updCell, writeCell,
        tryFinallyM, toVal, toBool, mapSet, throwE, hrr, ha, hb, hbp]

/-- Concrete instance of C7. -/
theorem claim7_compute_throw_leaves_cell_intact_witness :
    ((-1 : Int) ≠ 5 ∧
     ({ kind := .writable, val := some (.num 4), revision := 3,
        refreshRevision := 5 } : Cell).refreshRevision = 5 ∧
     ({ kind := .writable, val := some (.num 2), revision := 1,
        refreshRevision := 5 } : Cell).refreshRevision = 5 ∧
     ({ kind := .writable, val := some (.num 2), revision := 1,
        refreshRevision := 5 } : Cell).revision ≠ 0) ∧
    exec 7 (.get 2)
        (throwComputeState
          { kind := .writable, val := some (.num 4), revision := 3, refreshRevision := 5 }
          { kind := .writable, val := some (.num 2), revision := 1, refreshRevision := 5 }
          (.num 10) (.num 10) 0 5 (-1) 0 false none [] [] 0 [] [] 0 [] []) =
      (.thrown,
       throwComputeState
          { kind := .writable, val := some (.num 4), revision := 3, refreshRevision := 5 }
          { kind := .writable, val := some (.num 2), revision := 1, refreshRevision := 5 }
          (.num 10) (.num 10) 0 5 5 0 false none [] [] 1 [] [] 0 [] []) :=
  ⟨⟨by decide, by decide, by decide, by decide⟩,
   claim7_compute_throw_leaves_cell_intact 0
     { kind := .writable, val := some (.num 4), revision := 3, refreshRevision := 5 }
     { kind := .writable, val := some (.num 2), revision := 1, refreshRevision := 5 }
     (.num 10) (.num 10) 0 5 (-1) 0 false none [] [] 0 [] [] 0 [] []
     (by decide) (by decide) (by decide) (by decide)⟩

/-- Claim C8, counterexample.  The claim says a throwing listener does
not prevent the remaining listeners of the same cell or the other cells
of the batch from running.  On the code, in a batch setting cell 0 then
cell 1, cell 1 (flushed first) has listeners 0 (throwing) and 1, and
cell 0 has listener 2: the log contains ONLY listener 0's invocation —
listener 1 and listener 2 never ran, and the exception escaped the
batch. -/
theorem claim8_cex_listener_throw_skips_rest :
    listenerThrowRun.1 = .thrown ∧
    listenerThrowRun.2.log = [⟨1, 0, .num 9, .num 0⟩] := by
  rw [listenerThrow_eval]
  decide

/-- Claim C8, amended.  Listeners are invoked from the cell's listener
list during the flush, but a listener that throws aborts the rest of the
flush: the remaining listeners of the same cell and the refresh and
notification of the remaining cells are skipped, and the exception
propagates out of `batch` (cell 0 below is left unflushed: value still 0,
staged 7 pending, dirty flag still set). -/
theorem claim8_amended_listener_throw_aborts_flush :
    listenerThrowRun.1 = .thrown ∧
    listenerThrowRun.2.log.length = 1 ∧
    (cellAt listenerThrowRun.2 1).val = some (.num 9) ∧
    (cellAt listenerThrowRun.2 1).listeners = [0, 1] ∧
    (cellAt listenerThrowRun.2 0).val = some (.num 0) ∧
    (cellAt listenerThrowRun.2 0).next = some (.num 7) ∧
    (cellAt listenerThrowRun.2 0).dirty = true := by
  rw [listenerThrow_eval]
  decide

/-- Claim C9 (confirmed).  `refresh` on a materialized, dirty writable
cell with a staged value reports a change exactly when the new value is
not strictly equal (`===`, embedded as `jsStrictEq`, under which two
`NaN`s are NOT equal) to the cached one AND the caller-supplied equality
function, if any, does not report them equal; no structural comparison
takes place. -/
theorem claim9_refresh_identity_then_equality (fuel : Nat) (a b : JSVal)
    (eq : Option EqFn) (r g rv : Int) (att : Bool) (h : r ≠ g) :
    (exec (fuel + 2) (.refresh 0) (refreshChangeState a b eq r g rv att)).1 =
      .ok (.bool ((!jsStrictEq a b) &&
        (match eq with
         | none => true
         | some f => !applyEqFn f a b))) := by
  rcases eq with _ | f
  · cases hj : jsStrictEq a b <;>
      simp [exec, refreshChangeState, bindE, pureE, getS, setS, modS, cellAt, updCell,
            writeCell, toVal, toBool, h, hj]
  · cases hj : jsStrictEq a b <;> cases hf : applyEqFn f a b <;>
      simp [exec, refreshChangeState, bindE, pureE, getS, setS, modS, cellAt, updCell,
            writeCell, toVal, toBool, h, hj, hf]

/-- Concrete instance of C9 at the interesting point: two `NaN`s count as
a change. -/
theorem claim9_refresh_identity_then_equality_witness :
    (0 : Int) ≠ 1 ∧
    (exec 12 (.refresh 0) (refreshChangeState .nan .nan none 0 1 0 false)).1 =
      .ok (.bool true) :=
  ⟨by decide, claim9_refresh_identity_then_equality 10 .nan .nan none 0 1 0 false (by decide)⟩

/-- Claim C10 (confirmed).  Inside an open batch, `get()` on a
materialized, subscribed writable cell right after `set(v)` installs `v`
into the cached value during the `get` (stamping `refreshRevision` at the
current global revision), so the flush's `refresh` is a no-op returning
false and the listener is never invoked, although the value changed from
0 to `v` across the batch: the log stays empty. -/
theorem claim10_inbatch_get_after_set_suppresses_listener (fuel : Nat) (v : Int)
    (hv : v ≠ 0) :
    (setGetInBatchSubscribed (fuel + 9) v).1 = .ok (.val (.num v)) ∧
    (setGetInBatchSubscribed (fuel + 9) v).2.log = [] ∧
    (cellAt (setGetInBatchSubscribed (fuel + 9) v).2 0).val = some (.num v) ∧
    (cellAt (setGetInBatchSubscribed (fuel + 9) v).2 0).refreshRevision =
      (setGetInBatchSubscribed (fuel + 9) v).2.globalRevision := by
  have h0 : ¬((0 : Int) = v) := fun hh => hv hh.symm
  have hsub : subscribeRun (fuel + 9) 0 0 (initState [mkWritable (.num 0)] [⟨false⟩]) =
      (.ok .unit, subscribedW) := subscribeW_eval (fuel + 5)
  have hrun : setGetInBatchSubscribed (fuel + 9) v =
      exec (fuel + 9) (.batchRun (.seq (.setP 0 (.num v)) (.getP 0))) subscribedW := by
    simp only [setGetInBatchSubscribed, bind_eq]
    exact bindStep _ _ _ _ _ _ hsub rfl
  rw [hrun]
  exact inBatchSetGet_eval fuel v h0

/-- Concrete instance of C10. -/
theorem claim10_inbatch_get_after_set_suppresses_listener_witness :
    (5 : Int) ≠ 0 ∧
    ((setGetInBatchSubscribed 9 5).1 = .ok (.val (.num 5)) ∧
     (setGetInBatchSubscribed 9 5).2.log = [] ∧
     (cellAt (setGetInBatchSubscribed 9 5).2 0).val = some (.num 5) ∧
     (cellAt (setGetInBatchSubscribed 9 5).2 0).refreshRevision =
       (setGetInBatchSubscribed 9 5).2.globalRevision) :=
  ⟨by decide, claim10_inbatch_get_after_set_suppresses_listener 0 5 (by decide)⟩

end MicroObservables

